import Mathlib

/-!
Verification of the "Login with X" component in
`src/frontend/app/src/components/auth/page.tsx` (StravaTPOT).

The component holds one piece of state, the boolean `loading` flag
(`useState(false)`).  Its handler `handleLogin`:

  setLoading(true)
  try
    response ← fetch("/api/v1/auth/x/login", POST,
                     headers { Content-Type: application/json })   -- no body
    if ¬response.ok then throw Error("Failed to initiate X login")
    data ← response.json()
    window.location.href := data.auth_url
  catch e => console.error("X login error:", e); alert("Failed to start X login. Please try again.")
  finally => setLoading(false)

The render shows a button with `disabled={loading}` and label
`loading ? "Connecting..." : "Login with X"`.

We embed the handler shallowly as the list of observable events it emits,
indexed by the outcome of the network interaction, and fold those events
over an explicit component state.
-/

/-- Outcome of `await response.json()`: either the body fails to parse as
JSON (the promise rejects), or it parses and the `auth_url` property is
either a string or absent (JavaScript `undefined`). -/
inductive JsonBody where
  | malformed
  | parsed (auth_url : Option String)
deriving DecidableEq

/-- Outcome of the `fetch` interaction: the fetch promise rejects
(network failure), or a response arrives with an HTTP status and a body. -/
inductive FetchOutcome where
  | networkError
  | response (status : Nat) (body : JsonBody)
deriving DecidableEq

/-- The JavaScript errors the handler can catch: rejection of `fetch`
(a TypeError), the `Error` thrown by the handler itself, and rejection of
`response.json()` (a SyntaxError). -/
inductive JsError where
  | typeError
  | appError (msg : String)
  | syntaxError
deriving DecidableEq

/-- `Response.ok` per the fetch standard: status in the range 200..299. -/
def respOk (status : Nat) : Bool :=
  200 ≤ status && status ≤ 299

/-- Observable events the component emits while the handler runs. -/
inductive Event where
  | setLoading (b : Bool)
  | fetchStart (path method contentType : String) (body : Option String)
  | navigate (url : String)
  | consoleError (e : JsError)
  | alert (msg : String)
  | consoleLog (msg : String)
deriving DecidableEq

/-- The fetch call of the source: POST to the fixed path, a
`Content-Type: application/json` header, and no request body. -/
def fetchDispatch : Event :=
  Event.fetchStart "/api/v1/auth/x/login" "POST" "application/json" none

/-- The `location.href` setter stringifies its right-hand side per the
WHATWG URL/HTML standards; the JavaScript value `undefined` stringifies
to the literal text "undefined". -/
def hrefString : Option String → String
  | some s => s
  | none => "undefined"

/-- The `try` block of `handleLogin`: the events it emits and the error
it throws, if any.  Mirrors the source line by line: the `fetch` is
dispatched first; on a rejected fetch the TypeError propagates; on
`¬response.ok` the handler throws its own `Error`; otherwise
`response.json()` either rejects (SyntaxError) or yields `data`, and the
handler assigns `data.auth_url` to `window.location.href`. -/
def tryBlock : FetchOutcome → List Event × Option JsError
  | FetchOutcome.networkError => ([fetchDispatch], some JsError.typeError)
  | FetchOutcome.response status body =>
      if respOk status then
        match body with
        | JsonBody.malformed => ([fetchDispatch], some JsError.syntaxError)
        | JsonBody.parsed authUrl =>
            ([fetchDispatch, Event.navigate (hrefString authUrl)], none)
      else ([fetchDispatch], some (JsError.appError "Failed to initiate X login"))

/-- The `catch` block: log the error, then alert the user. -/
def catchBlock (e : JsError) : List Event :=
  [Event.consoleError e, Event.alert "Failed to start X login. Please try again."]

/-- The full handler: `setLoading(true)`, the `try` block, the `catch`
block when an error was thrown, and the `finally` block
`setLoading(false)` on every path. -/
def handleLogin (o : FetchOutcome) : List Event :=
  Event.setLoading true ::
    ((tryBlock o).1 ++
      (match (tryBlock o).2 with
       | some e => catchBlock e
       | none => []) ++
      [Event.setLoading false])

/-- The stub variant of the handler (second component in the file): its
body is a single `console.log`. -/
def handleLoginStub : List Event :=
  [Event.consoleLog "Login with X clicked"]

/-- Component-observable state: the `loading` flag, the navigation
target assigned to `window.location.href` (if any), and the alert,
console.error and console.log histories. -/
structure CompState where
  loading : Bool
  navigatedTo : Option String
  alerted : List String
  errorsLogged : List JsError
  logs : List String
deriving DecidableEq

/-- State at component mount: `useState(false)`, nothing emitted yet. -/
def initState : CompState :=
  { loading := false, navigatedTo := none, alerted := [], errorsLogged := [], logs := [] }

/-- Effect of one event on the component state. -/
def step (s : CompState) : Event → CompState
  | Event.setLoading b => { s with loading := b }
  | Event.fetchStart _ _ _ _ => s
  | Event.navigate u => { s with navigatedTo := some u }
  | Event.consoleError e => { s with errorsLogged := s.errorsLogged ++ [e] }
  | Event.alert m => { s with alerted := s.alerted ++ [m] }
  | Event.consoleLog m => { s with logs := s.logs ++ [m] }

/-- Run a list of events over a state. -/
def run (s : CompState) (evs : List Event) : CompState :=
  evs.foldl step s

/-- The button of the network-backed component: `disabled={loading}`. -/
def buttonDisabled (loading : Bool) : Bool := loading

/-- The button label: `loading ? "Connecting..." : "Login with X"`. -/
def buttonLabel (loading : Bool) : String :=
  if loading then "Connecting..." else "Login with X"

/-- The stub component's button carries no `disabled` attribute, so it is
never disabled. -/
def stubButtonDisabled : Bool := false

/-- An activation (click) of the network-backed component: a disabled
button does not fire its click handler, otherwise `handleLogin` runs. -/
def activateEvents (loading : Bool) (o : FetchOutcome) : List Event :=
  if buttonDisabled loading then [] else handleLogin o

/-- Recognizer for the network-request event. -/
def isFetch : Event → Bool
  | Event.fetchStart _ _ _ _ => true
  | _ => false

/-- The events the handler emits synchronously before it suspends at the
first `await`: the loading flip and the fetch dispatch. -/
def preAwait : List Event :=
  [Event.setLoading true, fetchDispatch]

/-- The events the handler emits after the network interaction settles. -/
def postAwait (o : FetchOutcome) : List Event :=
  (tryBlock o).1.drop 1 ++
    (match (tryBlock o).2 with
     | some e => catchBlock e
     | none => []) ++
    [Event.setLoading false]

/-- The spec's state domain.  The source represents this state as the
single boolean `loading`: `Pending` is `loading = true`; `Idle` and
`Failed` are both represented by `loading = false`. -/
inductive LoginRequestState where
  | Idle
  | Pending
  | Failed
deriving DecidableEq

/-- The code's representation of a `LoginRequestState` value. -/
def loadingOf : LoginRequestState → Bool
  | LoginRequestState.Pending => true
  | _ => false

/-- Failures the handler catches: transport error, non-2xx status, or a
body that fails to parse as JSON. -/
def caughtFailure : FetchOutcome → Bool
  | FetchOutcome.networkError => true
  | FetchOutcome.response status body =>
      !respOk status ||
        (match body with
         | JsonBody.malformed => true
         | JsonBody.parsed _ => false)

/-- A component instance together with the number of login requests
currently in flight. -/
structure Session where
  comp : CompState
  inFlight : Nat
deriving DecidableEq

/-- Session at mount: no request outstanding. -/
def initSession : Session := { comp := initState, inFlight := 0 }

/-- Interleaved UI events: a user click, or the settling of the
outstanding network interaction with a given outcome. -/
inductive UiEvent where
  | click
  | settle (o : FetchOutcome)

/-- One step of the single-threaded UI loop.  A click on a disabled
button is dropped by the browser; an enabled click runs the handler up to
its first `await` (dispatching the request).  A settle event resumes the
suspended handler with the outcome. -/
def sessStep (s : Session) : UiEvent → Session
  | UiEvent.click =>
      if buttonDisabled s.comp.loading then s
      else { comp := run s.comp preAwait, inFlight := s.inFlight + 1 }
  | UiEvent.settle o =>
      if s.inFlight = 0 then s
      else { comp := run s.comp (postAwait o), inFlight := s.inFlight - 1 }

/-! Helper lemmas. -/

/-- Running concatenated event lists composes. -/
theorem run_append (s : CompState) (l₁ l₂ : List Event) :
    run s (l₁ ++ l₂) = run (run s l₁) l₂ := by
  simp [run, List.foldl_append]

/-- Any event list ending in `setLoading false` leaves the flag false. -/
theorem run_loading_last (s : CompState) (l : List Event) :
    (run s (l ++ [Event.setLoading false])).loading = false := by
  rw [run_append]
  rfl

/-- The handler is its synchronous prefix followed by its resumption. -/
theorem handleLogin_split (o : FetchOutcome) :
    handleLogin o = preAwait ++ postAwait o := by
  cases o with
  | networkError => rfl
  | response status body =>
      cases body <;> unfold handleLogin postAwait tryBlock <;>
        by_cases h : respOk status <;> simp [h, preAwait, catchBlock]

/-- The synchronous prefix leaves the component Pending. -/
theorem preAwait_loading (s : CompState) : (run s preAwait).loading = true := rfl

/-- The resumption always ends non-Pending. -/
theorem postAwait_loading (s : CompState) (o : FetchOutcome) :
    (run s (postAwait o)).loading = false := by
  unfold postAwait
  exact run_loading_last s _

/-- Sessions where the in-flight request count matches the loading flag. -/
def flightInv (s : Session) : Prop :=
  s.inFlight = if s.comp.loading then 1 else 0

theorem flightInv_init : flightInv initSession := rfl

theorem flightInv_step (s : Session) (e : UiEvent) (h : flightInv s) :
    flightInv (sessStep s e) := by
  unfold flightInv at h ⊢
  cases e with
  | click =>
      by_cases hl : s.comp.loading = true
      · simpa [sessStep, buttonDisabled, hl] using h
      · have hl0 : s.comp.loading = false := by simpa using hl
        rw [hl0] at h
        simp at h
        simp [sessStep, buttonDisabled, hl0, preAwait_loading, h]
  | settle o =>
      by_cases h0 : s.inFlight = 0
      · simpa [sessStep, h0] using h
      · have hl : s.comp.loading = true := by
          by_contra hc
          have hf : s.comp.loading = false := by simpa using hc
          rw [hf] at h
          simp at h
          exact h0 h
        have h1 : s.inFlight = 1 := by rw [hl] at h; simpa using h
        simp [sessStep, h0, h1, postAwait_loading]

theorem flightInv_foldl (s : Session) (h : flightInv s) (evs : List UiEvent) :
    flightInv (List.foldl sessStep s evs) := by
  induction evs generalizing s with
  | nil => exact h
  | cons e rest ih => exact ih _ (flightInv_step s e h)

/-! Claim theorems. -/

/-- C1: for every success (2xx) response whose JSON body carries an
`auth_url` string, the handler navigates to exactly that string,
unmodified. -/
theorem c1_success_navigates_exact_url (status : Nat) (url : String)
    (h : respOk status = true) :
    (run initState
        (handleLogin (FetchOutcome.response status (JsonBody.parsed (some url))))).navigatedTo =
      some url := by
  simp [handleLogin, tryBlock, h, hrefString, run, step, initState, fetchDispatch]

theorem c1_witness :
    respOk 200 = true ∧
    (run initState
        (handleLogin (FetchOutcome.response 200
          (JsonBody.parsed (some "https://provider.example/authorize?x=1"))))).navigatedTo =
      some "https://provider.example/authorize?x=1" :=
  ⟨by decide, c1_success_navigates_exact_url 200 _ (by decide)⟩

/-- C2: on every settling of the network interaction, the handler resets
the loading flag to false before returning (its last emitted event is
`setLoading false`), so the state never remains Pending. -/
theorem c2_loading_settles (o : FetchOutcome) :
    (run initState (handleLogin o)).loading = false ∧
    (handleLogin o).getLast? = some (Event.setLoading false) := by
  constructor
  · rw [handleLogin_split, run_append]
    exact postAwait_loading _ o
  · cases o with
    | networkError => rfl
    | response status body =>
        cases body <;> unfold handleLogin tryBlock <;>
          by_cases h : respOk status <;> simp [h, catchBlock]

/-- C3: the code at the claimed failing input — HTTP 200 with body `{}`
(no `auth_url`) — assigns the undefined property to `location.href`,
navigating to the string "undefined", and raises no alert: the missing
field is not treated as a failure. -/
theorem c3_missing_auth_url_navigates_undefined :
    (run initState
        (handleLogin (FetchOutcome.response 200 (JsonBody.parsed none)))).navigatedTo =
      some "undefined" ∧
    (run initState
        (handleLogin (FetchOutcome.response 200 (JsonBody.parsed none)))).alerted = [] := by
  exact ⟨rfl, rfl⟩

/-- C4: over every sequence of interleaved clicks and network
completions, at most one login request is in flight, and a click while
the component is Pending is a no-op. -/
theorem c4_single_flight :
    (∀ evs : List UiEvent, (List.foldl sessStep initSession evs).inFlight ≤ 1) ∧
    (∀ s : Session, s.comp.loading = true → sessStep s UiEvent.click = s) := by
  constructor
  · intro evs
    have h := flightInv_foldl initSession flightInv_init evs
    unfold flightInv at h
    rw [h]
    split <;> simp
  · intro s hl
    simp [sessStep, buttonDisabled, hl]

theorem c4_witness :
    (List.foldl sessStep initSession
        [UiEvent.click, UiEvent.click, UiEvent.settle FetchOutcome.networkError]).inFlight ≤ 1 ∧
    sessStep
        { comp := { loading := true, navigatedTo := none, alerted := [],
                    errorsLogged := [], logs := [] },
          inFlight := 1 } UiEvent.click =
      { comp := { loading := true, navigatedTo := none, alerted := [],
                  errorsLogged := [], logs := [] },
        inFlight := 1 } :=
  ⟨c4_single_flight.1 _, c4_single_flight.2 _ rfl⟩

/-- C5: on a non-success HTTP status the handler never reads the body
(its trace is the same for every body), performs no navigation, and
raises the failure alert. -/
theorem c5_error_status_ignores_body (status : Nat) (b₁ b₂ : JsonBody)
    (h : respOk status = false) :
    handleLogin (FetchOutcome.response status b₁) =
      handleLogin (FetchOutcome.response status b₂) ∧
    (run initState (handleLogin (FetchOutcome.response status b₁))).navigatedTo = none ∧
    (run initState (handleLogin (FetchOutcome.response status b₁))).alerted =
      ["Failed to start X login. Please try again."] := by
  cases b₁ <;> cases b₂ <;>
    simp [handleLogin, tryBlock, h, catchBlock, run, step, initState, fetchDispatch]

theorem c5_witness :
    respOk 500 = false ∧
    (handleLogin (FetchOutcome.response 500 JsonBody.malformed) =
      handleLogin (FetchOutcome.response 500 (JsonBody.parsed (some "u"))) ∧
    (run initState (handleLogin (FetchOutcome.response 500 JsonBody.malformed))).navigatedTo =
      none ∧
    (run initState (handleLogin (FetchOutcome.response 500 JsonBody.malformed))).alerted =
      ["Failed to start X login. Please try again."]) :=
  ⟨by decide,
   c5_error_status_ignores_body 500 JsonBody.malformed (JsonBody.parsed (some "u")) (by decide)⟩

/-- C6: on every activation from a non-Pending state the handler first
sets loading, then dispatches the POST to /api/v1/auth/x/login with a
Content-Type application/json header and no request body. -/
theorem c6_pending_before_fetch (o : FetchOutcome) :
    (activateEvents false o).take 2 =
      [Event.setLoading true,
       Event.fetchStart "/api/v1/auth/x/login" "POST" "application/json" none] := by
  cases o with
  | networkError => rfl
  | response status body =>
      cases body <;> unfold activateEvents handleLogin tryBlock <;>
        by_cases h : respOk status <;> simp [h, buttonDisabled, fetchDispatch]

/-- C7: the rendered control shows "Connecting..." and is disabled
exactly in the Pending state, and shows "Login with X" enabled in the
Idle and Failed states (both represented by `loading = false`). -/
theorem c7_render_reflects_state (s : LoginRequestState) :
    buttonLabel (loadingOf s) =
      (match s with
       | LoginRequestState.Pending => "Connecting..."
       | _ => "Login with X") ∧
    buttonDisabled (loadingOf s) =
      (match s with
       | LoginRequestState.Pending => true
       | _ => false) := by
  cases s <;> exact ⟨rfl, rfl⟩

/-- C8 counterexample: after the InitiationFailure of an HTTP 500
response, the component's only state variable equals its mount (Idle)
value — the code stores no distinct Failed value. -/
theorem c8_counterexample :
    (run initState
        (handleLogin (FetchOutcome.response 500 (JsonBody.parsed none)))).loading =
      initState.loading ∧
    initState.loading = false :=
  ⟨rfl, rfl⟩

/-- C8 (amended): after any failure the handler catches (transport
error, non-2xx status, malformed success payload), the state variable
returns to its mount non-Pending value, the failure alert is surfaced,
and the control is re-activatable. -/
theorem c8_failure_alerts_and_reactivates (o : FetchOutcome)
    (h : caughtFailure o = true) :
    (run initState (handleLogin o)).loading = initState.loading ∧
    (run initState (handleLogin o)).alerted =
      ["Failed to start X login. Please try again."] ∧
    buttonDisabled (run initState (handleLogin o)).loading = false := by
  cases o with
  | networkError =>
      exact ⟨rfl, rfl, rfl⟩
  | response status body =>
      cases body with
      | malformed =>
          by_cases hr : respOk status <;>
            simp [handleLogin, tryBlock, hr, catchBlock, run, step, initState,
              fetchDispatch, buttonDisabled]
      | parsed authUrl =>
          have hr : respOk status = false := by
            by_contra hc
            have ht : respOk status = true := by simpa using hc
            simp [caughtFailure, ht] at h
          simp [handleLogin, tryBlock, hr, catchBlock, run, step, initState,
            fetchDispatch, buttonDisabled]

theorem c8_witness :
    caughtFailure FetchOutcome.networkError = true ∧
    ((run initState (handleLogin FetchOutcome.networkError)).loading = initState.loading ∧
    (run initState (handleLogin FetchOutcome.networkError)).alerted =
      ["Failed to start X login. Please try again."] ∧
    buttonDisabled (run initState (handleLogin FetchOutcome.networkError)).loading = false) :=
  ⟨by decide, c8_failure_alerts_and_reactivates FetchOutcome.networkError (by decide)⟩

/-- C9: the stub variant performs no fetch, no navigation and no state
mutation — its only effect is one console log — and its control is never
disabled. -/
theorem c9_stub_only_logs (s : CompState) :
    run s handleLoginStub = { s with logs := s.logs ++ ["Login with X clicked"] } ∧
    handleLoginStub.countP isFetch = 0 ∧
    stubButtonDisabled = false :=
  ⟨rfl, rfl, rfl⟩

/-- C10: the handler never reads the loading flag: its trace is a
function of the network outcome alone, always starting with
`setLoading true` and containing exactly one fetch dispatch; the only
suppression of concurrent requests is the rendered button's disabled
attribute, checked outside the handler. -/
theorem c10_handler_independent_of_loading (loading : Bool) (o : FetchOutcome) :
    (handleLogin o).countP isFetch = 1 ∧
    (handleLogin o).head? = some (Event.setLoading true) ∧
    activateEvents loading o =
      (if buttonDisabled loading then [] else handleLogin o) := by
  refine ⟨?_, rfl, rfl⟩
  cases o with
  | networkError => rfl
  | response status body =>
      cases body <;> unfold handleLogin tryBlock <;>
        by_cases h : respOk status <;> simp [h, catchBlock, isFetch, fetchDispatch]
